import Mathlib

/-!
# InternAI — verification of the specification against the source

This file shallowly embeds the parts of the InternAI repository that the
claims under review talk about:

* the JavaScript/JSON value fragment needed to model the Next.js API routes
  (`app/api/users/route.ts`, `app/api/recommendations/route.ts`) and the
  page-level handler `handleProfileCompleteFromAuth` of `app/page.tsx`;
* `JSON.stringify` / `JSON.parse` on the flat JSON fragment these routes
  actually store (arrays of atoms, strings, numbers, booleans, null) —
  nested arrays and objects are never stored by the modelled code paths;
* the recommendation engine of `Module-B ML`.  Its Python sources
  (`recommendation_engine.py`, `app.py`, `config.yml`) are not part of the
  repository snapshot; only `Module-B ML/README.md` and the callers are.
  Those engine definitions are therefore modelled from the specification and
  are marked `Modelled from the spec:` in their doc comments.

Machine integers do not occur on the modelled paths; scores are rationals.
-/

/-! ## JavaScript/JSON values (flat fragment)

The API routes receive JSON bodies.  The claims only exercise JSON values
that are atoms or flat arrays of atoms, so arrays are modelled as lists of
atoms; nested arrays/objects are not modelled because no modelled code path
stores or reads them. -/

/-- An atomic JSON value. -/
inductive JAtom where
  | null : JAtom
  | bool (b : Bool) : JAtom
  | num (n : Int) : JAtom
  | str (s : String) : JAtom
deriving DecidableEq, Repr

/-- A JavaScript value as seen by the API routes: `undef` models the absence
of a field (JS `undefined`), the rest mirror JSON. -/
inductive JSVal where
  | undef : JSVal
  | null : JSVal
  | bool (b : Bool) : JSVal
  | num (n : Int) : JSVal
  | str (s : String) : JSVal
  | arr (xs : List JAtom) : JSVal
deriving DecidableEq, Repr

/-- JavaScript truthiness: `undefined`, `null`, `false`, `0` and `""` are
falsy; every array (even `[]`) is truthy. -/
def JSVal.truthy : JSVal → Bool
  | .undef => false
  | .null => false
  | .bool b => b
  | .num n => n != 0
  | .str s => s != ""
  | .arr _ => true

/-- Models the JS test `v.length === 0`: strings and arrays have a `length`
property; for every other value `v.length` is `undefined` and
`undefined === 0` is `false`. -/
def JSVal.lengthEqZero : JSVal → Bool
  | .str s => s.length == 0
  | .arr xs => xs.length == 0
  | _ => false

/-- JS `a || b` on values: `a` when truthy, else `b`. -/
def jsOr (a b : JSVal) : JSVal := if a.truthy then a else b

/-- JS `a || b` where `a` is a string-or-absent field and `b` a string
default (an empty string counts as falsy). -/
def jsOrStr (a : Option String) (b : String) : String :=
  match a with
  | some s => if s = "" then b else s
  | none => b

/-! ## `JSON.stringify` on the flat fragment -/

/-- Lower-case hex digit for `n < 16`, as produced by `JSON.stringify`
escapes (`\u00XX`). -/
def hexDigit (n : Nat) : Char :=
  if n < 10 then Char.ofNat (48 + n) else Char.ofNat (87 + n)

/-- `JSON.stringify`'s escaping of one character inside a string literal:
`"` and `\` are backslash-escaped, the named control characters use their
short escapes, other control characters become `\u00XX`, everything else is
emitted verbatim. -/
def escapeChar (c : Char) : List Char :=
  if c = '"' then ['\\', '"']
  else if c = '\\' then ['\\', '\\']
  else if c.toNat = 8 then ['\\', 'b']
  else if c.toNat = 9 then ['\\', 't']
  else if c.toNat = 10 then ['\\', 'n']
  else if c.toNat = 12 then ['\\', 'f']
  else if c.toNat = 13 then ['\\', 'r']
  else if c.toNat < 32 then ['\\', 'u', '0', '0', hexDigit (c.toNat / 16), hexDigit (c.toNat % 16)]
  else [c]

/-- Escape a whole character sequence. -/
def escapeChars : List Char → List Char
  | [] => []
  | c :: cs => escapeChar c ++ escapeChars cs

/-- `JSON.stringify` of a string, as a character sequence. -/
def encodeStringChars (s : String) : List Char :=
  '"' :: escapeChars s.data ++ ['"']

/-- `JSON.stringify` of one atom, as a character sequence. -/
def encodeAtomChars : JAtom → List Char
  | .null => "null".data
  | .bool true => "true".data
  | .bool false => "false".data
  | .num n => (toString n).data
  | .str s => encodeStringChars s

/-- Comma-joined encodings of the elements of an array. -/
def encodeAtomsCore : List JAtom → List Char
  | [] => []
  | [a] => encodeAtomChars a
  | a :: rest => encodeAtomChars a ++ ',' :: encodeAtomsCore rest

/-- `JSON.stringify` of a flat array. -/
def encodeJsonArray (xs : List JAtom) : String :=
  ⟨'[' :: encodeAtomsCore xs ++ [']']⟩

/-- `JSON.stringify` on the flat JS fragment.  `none` models the JS result
`undefined` (stringifying `undefined` itself). -/
def jsonStringify : JSVal → Option String
  | .undef => none
  | .null => some "null"
  | .bool true => some "true"
  | .bool false => some "false"
  | .num n => some (toString n)
  | .str s => some ⟨encodeStringChars s⟩
  | .arr xs => some (encodeJsonArray xs)

/-- The text the users route stores for an array-ish field:
`JSON.stringify(v || [])`.  The fallback `[]` makes the stringified value
always defined. -/
def storedJson (v : JSVal) : String :=
  (jsonStringify (jsOr v (.arr []))).getD ""

/-! ## `JSON.parse` on the flat fragment

The parser below accepts exactly the texts `jsonStringify` produces (plus
other well-formed flat-fragment texts); on the stored columns these are the
only reachable inputs.  Fractional/exponent number syntax is not modelled:
the stringifier never emits it. -/

/-- Hex digit value of a character, if any. -/
def hexVal (c : Char) : Option Nat :=
  if 48 ≤ c.toNat ∧ c.toNat ≤ 57 then some (c.toNat - 48)
  else if 97 ≤ c.toNat ∧ c.toNat ≤ 102 then some (c.toNat - 87)
  else if 65 ≤ c.toNat ∧ c.toNat ≤ 70 then some (c.toNat - 55)
  else none

/-- Parse the body of a JSON string literal (the opening quote already
consumed), returning the decoded characters and the unconsumed tail. -/
def parseStringBody : List Char → Option (List Char × List Char)
  | [] => none
  | c :: rest =>
    if c = '"' then some ([], rest)
    else if c = '\\' then
      match rest with
      | [] => none
      | e :: rest2 =>
        if e = '"' then (parseStringBody rest2).map (fun p => ('"' :: p.1, p.2))
        else if e = '\\' then (parseStringBody rest2).map (fun p => ('\\' :: p.1, p.2))
        else if e = '/' then (parseStringBody rest2).map (fun p => ('/' :: p.1, p.2))
        else if e = 'b' then (parseStringBody rest2).map (fun p => (Char.ofNat 8 :: p.1, p.2))
        else if e = 'f' then (parseStringBody rest2).map (fun p => (Char.ofNat 12 :: p.1, p.2))
        else if e = 'n' then (parseStringBody rest2).map (fun p => (Char.ofNat 10 :: p.1, p.2))
        else if e = 'r' then (parseStringBody rest2).map (fun p => (Char.ofNat 13 :: p.1, p.2))
        else if e = 't' then (parseStringBody rest2).map (fun p => (Char.ofNat 9 :: p.1, p.2))
        else if e = 'u' then
          match rest2 with
          | h1 :: h2 :: h3 :: h4 :: rest3 =>
            match hexVal h1, hexVal h2, hexVal h3, hexVal h4 with
            | some a, some b, some c2, some d =>
              (parseStringBody rest3).map
                (fun p => (Char.ofNat (4096 * a + 256 * b + 16 * c2 + d) :: p.1, p.2))
            | _, _, _, _ => none
          | _ => none
        else none
    else if c.toNat < 32 then none
    else (parseStringBody rest).map (fun p => (c :: p.1, p.2))

/-- Decimal digit test. -/
def isDigitChar (c : Char) : Bool := 48 ≤ c.toNat && c.toNat ≤ 57

/-- Value of a digit sequence (most significant first). -/
def digitsToNat (ds : List Char) : Nat :=
  ds.foldl (fun acc c => 10 * acc + (c.toNat - 48)) 0

/-- Parse one atom off the front of the input. -/
def parseAtom : List Char → Option (JAtom × List Char)
  | [] => none
  | c :: rest =>
    if c = '"' then (parseStringBody rest).map (fun p => (JAtom.str ⟨p.1⟩, p.2))
    else if c = 'n' then
      match rest with
      | 'u' :: 'l' :: 'l' :: r => some (.null, r)
      | _ => none
    else if c = 't' then
      match rest with
      | 'r' :: 'u' :: 'e' :: r => some (.bool true, r)
      | _ => none
    else if c = 'f' then
      match rest with
      | 'a' :: 'l' :: 's' :: 'e' :: r => some (.bool false, r)
      | _ => none
    else if c = '-' then
      match List.span isDigitChar rest with
      | ([], _) => none
      | (ds, r) => some (.num (-(Int.ofNat (digitsToNat ds))), r)
    else if isDigitChar c then
      match List.span isDigitChar rest with
      | (ds, r) => some (.num (Int.ofNat (digitsToNat (c :: ds))), r)
    else none

/-- Parse the elements of a non-empty array (opening bracket consumed),
including the closing bracket.  `fuel` bounds the number of elements; any
`fuel` at least the element count is enough. -/
def parseAtomsRest : Nat → List Char → Option (List JAtom × List Char)
  | 0, _ => none
  | fuel + 1, l =>
    match parseAtom l with
    | none => none
    | some (a, r) =>
      match r with
      | ']' :: r2 => some ([a], r2)
      | ',' :: r2 => (parseAtomsRest fuel r2).map (fun p => (a :: p.1, p.2))
      | _ => none

/-- Embed an atom back into the JS value world (`JSON.parse` results). -/
def jatomToVal : JAtom → JSVal
  | .null => .null
  | .bool b => .bool b
  | .num n => .num n
  | .str s => .str s

/-- `JSON.parse` on the flat fragment: the whole input must be consumed.
An input starting with `[` is an array (`[]` the empty one); anything else
must be a single atom. -/
def jsonParse (s : String) : Option JSVal :=
  match s.data with
  | '[' :: rest =>
    if rest = [']'] then some (.arr [])
    else
      match parseAtomsRest rest.length rest with
      | some (xs, []) => some (.arr xs)
      | _ => none
  | l =>
    match parseAtom l with
    | some (a, []) => some (jatomToVal a)
    | _ => none

/-! ## The users route (`Module-C-UI-UX/app/api/users/route.ts`)

The Prisma `user_profiles` table has a unique `email` key, so the database
is modelled as a partial map from emails to rows; the route's
find-then-create-or-update sequence nets out to one keyed write. -/

/-- A row of the `user_profiles` table, restricted to the columns the
modelled routes read or write. -/
structure UserRow where
  name : String
  email : String
  educationLevel : JSVal
  majorField : String
  skills : String
  preferredSectors : String
  careerGoal : String
  preferredLocations : String
  remoteOk : Bool
  availabilityStart : Option String
  durationWeeksPref : Option Int
  stipendPref : Option String
  yearsOfExperience : Int
deriving DecidableEq, Repr

/-- The user-profiles table, keyed by the unique `email` column. -/
def Db : Type := String → Option UserRow

/-- The JSON body of `POST /api/users`, with the destructured fields.
Fields whose JS-dynamic behaviour matters to the claims are `JSVal`;
the purely pass-through ones are typed plainly. -/
structure UsersBody where
  name : Option String
  email : Option String
  educationLevel : JSVal
  majorField : Option String
  skills : JSVal
  preferredSectors : JSVal
  careerGoal : Option String
  preferredLocations : JSVal
  remoteOk : JSVal
  availabilityStart : Option String
  durationWeeksPref : Option Int
  stipendPref : Option String
deriving DecidableEq, Repr

/-- Result of `POST /api/users`: either the 400 validation rejection or the
success payload (`{success: true, user: {id, email, name}}`). -/
inductive UsersPostResult where
  | validationError (status : Nat) (error : String)
  | success (email : String) (name : String)
deriving DecidableEq, Repr

/-- `POST /api/users`: reject unless `educationLevel` and `skills` pass the
check `!educationLevel || !skills || skills.length === 0`; otherwise write
the row under `email || tempEmail` (the route generates `tempEmail` from
`Date.now()`, passed here as a parameter) and answer success.  No write
happens on the rejection path.  `userData` carries every column except
`yearsOfExperience`, so the update path preserves the stored value while
the create path gets the schema default 0. -/
def usersPOST (tempEmail : String) (body : UsersBody) (db : Db) : UsersPostResult × Db :=
  if !body.educationLevel.truthy || !body.skills.truthy || body.skills.lengthEqZero then
    (.validationError 400 "Education level and at least one skill are required", db)
  else
    let e := jsOrStr body.email tempEmail
    let row : UserRow :=
      { name := jsOrStr body.name "Anonymous User"
        email := e
        educationLevel := body.educationLevel
        majorField := (body.majorField).getD ""
        skills := storedJson body.skills
        preferredSectors := storedJson body.preferredSectors
        careerGoal := (body.careerGoal).getD ""
        preferredLocations := storedJson body.preferredLocations
        remoteOk := body.remoteOk.truthy
        availabilityStart := body.availabilityStart
        durationWeeksPref := body.durationWeeksPref
        stipendPref := body.stipendPref
        yearsOfExperience := match db e with
                             | some old => old.yearsOfExperience
                             | none => 0 }
    (.success e row.name, fun x => if x = e then some row else db x)

/-- The profile slice `GET /api/users` sends back after `JSON.parse`-ing the
three stored array columns. -/
structure FetchedProfile where
  email : String
  skills : JSVal
  preferredSectors : JSVal
  preferredLocations : JSVal
  yearsExperience : Int
deriving DecidableEq, Repr

/-- Result of `GET /api/users`. -/
inductive UsersGetResult where
  | error (status : Nat) (msg : String)
  | success (profile : FetchedProfile)
deriving DecidableEq, Repr

/-- `GET /api/users?email=...`: missing/empty email is a 400, unknown email
a 404; otherwise the three stored JSON columns are parsed back and
returned (a `JSON.parse` throw is caught into the 500 handler). -/
def usersGET (emailParam : Option String) (db : Db) : UsersGetResult :=
  match emailParam with
  | none => .error 400 "Email parameter is required"
  | some e =>
    if e = "" then .error 400 "Email parameter is required"
    else
      match db e with
      | none => .error 404 "User not found"
      | some row =>
        match jsonParse row.skills, jsonParse row.preferredSectors,
              jsonParse row.preferredLocations with
        | some sk, some ps, some pl =>
          .success { email := row.email, skills := sk, preferredSectors := ps,
                     preferredLocations := pl, yearsExperience := row.yearsOfExperience }
        | _, _, _ => .error 500 "Failed to fetch user profile"

/-! ## The recommendations proxy (`app/api/recommendations/route.ts`)

The route reads `{email}` from the body, looks the profile up in the same
`user_profiles` table, calls the ML service, and either propagates its
payload or fails.  The outcome of the external `fetch` is a parameter. -/

/-- The slice of one ML recommendation that `page.tsx` consumes.
`component_percentages` models `scoring_breakdown.component_scores` as the
(name, percentage) pairs the page extracts from it. -/
structure RecJson where
  internship_id : Option String
  idField : Option String
  title : String
  organization : String
  location_city : Option String
  remote_allowed : Bool
  stipend : Option String
  preferred_skills : JSVal
  description : String
  score : ℚ
  application_deadline : Option String
  duration_weeks : Option Nat
  match_reasons : List String
  component_percentages : List (String × ℚ)
deriving DecidableEq, Repr

/-- The JSON payload of a 200 answer from `POST /recommend` as the proxy
reads it (`mlData.recommendations || []`, `mlData.total_recommendations || 0`). -/
structure MlData where
  recommendations : Option (List RecJson)
  total_recommendations : Option Nat
deriving DecidableEq, Repr

/-- Outcome of the proxy's `fetch` to the ML service. -/
inductive MlOutcome where
  | notOk (status : Nat)
  | okJson (data : MlData)
deriving DecidableEq, Repr

/-- Result of `POST /api/recommendations`. -/
inductive ProxyResult where
  | jsonError (status : Nat) (error : String)
  | jsonSuccess (userEmail : String) (userName : String)
      (recommendations : List RecJson) (total : Nat)
deriving DecidableEq, Repr

/-- `POST /api/recommendations`: missing email is a 400, unknown profile a
404; a non-ok ML response is turned into a 500 with an error message and no
recommendations; an ok response is passed through with defaults. -/
def recommendationsPOST (email : Option String) (db : Db) (ml : MlOutcome) : ProxyResult :=
  match email with
  | none => .jsonError 400 "Email is required to get recommendations"
  | some e =>
    if e = "" then .jsonError 400 "Email is required to get recommendations"
    else
      match db e with
      | none => .jsonError 404 "User profile not found. Please create a profile first."
      | some u =>
        match ml with
        | .notOk _ => .jsonError 500 "Failed to get recommendations from ML service"
        | .okJson d =>
          .jsonSuccess u.email u.name (d.recommendations.getD []) (d.total_recommendations.getD 0)

/-! ## The page handler (`app/page.tsx`) -/

/-- The `UserProfileData` shape `page.tsx` passes around; array-or-string
typed fields are `JSVal`. -/
structure UserProfileData where
  name : Option String
  email : Option String
  educationLevel : Option String
  majorField : Option String
  skills : JSVal
  preferredSectors : JSVal
  preferredLocations : JSVal
  remoteOk : JSVal
  durationWeeksPref : Option Int
  stipendPref : Option String
  careerGoal : Option String
deriving DecidableEq, Repr

/-- The `Internship` interface of `page.tsx` (what the UI renders). -/
structure PageInternship where
  id : String
  title : String
  company : String
  location : String
  type' : String
  salary : String
  skills : List String
  description : String
  matchScore : Int
  applicationDeadline : Option String
  duration : String
  explanations : List String
  contributors : List (String × ℚ)
deriving DecidableEq, Repr

/-- JS `String(atom)` for the atoms that can sit in a profile array. -/
def atomToString : JAtom → String
  | .null => "null"
  | .bool true => "true"
  | .bool false => "false"
  | .num n => toString n
  | .str s => s

/-- JS `String(v)` on a value (`String([...])` joins the elements with
commas). -/
def jsValToString : JSVal → String
  | .undef => "undefined"
  | .null => "null"
  | .bool true => "true"
  | .bool false => "false"
  | .num n => toString n
  | .str s => s
  | .arr xs => String.intercalate "," (xs.map atomToString)

/-- JS truthiness of an atom. -/
def atomTruthy : JAtom → Bool
  | .null => false
  | .bool b => b
  | .num n => n != 0
  | .str s => s != ""

/-- The location pick of one mock card:
`Array.isArray(v) ? v[0] || dflt : typeof v === 'string' ? v.split(',')[0]?.trim() || dflt : dflt`. -/
def mockLocation (v : JSVal) (dflt : String) : String :=
  match v with
  | .arr xs =>
    match xs.head? with
    | some a => if atomTruthy a then atomToString a else dflt
    | none => dflt
  | .str s =>
    match (s.splitOn ",").head? with
    | some t => if t.trim = "" then dflt else t.trim
    | none => dflt
  | _ => dflt

/-- `generateMockRecommendations` of `page.tsx`: three hard-coded cards,
personalised from the profile's preferred locations, remote flag and
skills. -/
def generateMockRecommendations (profileData : UserProfileData) : List PageInternship :=
  [ { id := "1"
      title := "Software Development Intern"
      company := "TechCorp"
      location := mockLocation profileData.preferredLocations "Mumbai"
      type' := if profileData.remoteOk = .bool true ∨ profileData.remoteOk = .str "true"
               then "remote" else "onsite"
      salary := "₹25,000/month"
      skills := match profileData.skills with
                | .arr xs => (xs.take 3).map atomToString
                | _ => ["Python", "JavaScript"]
      description := "Join our development team to work on cutting-edge web applications using modern technologies."
      matchScore := 92
      applicationDeadline := some "2024-02-15"
      duration := "6 months"
      explanations := []
      contributors := [] },
    { id := "2"
      title := "Data Science Intern"
      company := "DataFlow Solutions"
      location := mockLocation profileData.preferredLocations "Delhi"
      type' := "hybrid"
      salary := "₹30,000/month"
      skills := ["Python", "Machine Learning", "SQL"]
      description := "Work with large datasets and build predictive models for our analytics platform."
      matchScore := 88
      applicationDeadline := some "2024-02-20"
      duration := "4 months"
      explanations := []
      contributors := [] },
    { id := "3"
      title := "UI/UX Design Intern"
      company := "Creative Studios"
      location := mockLocation profileData.preferredLocations "Bangalore"
      type' := "onsite"
      salary := "₹20,000/month"
      skills := ["Figma", "Adobe XD", "Prototyping"]
      description := "Design user interfaces and create amazing user experiences for our mobile applications."
      matchScore := 85
      applicationDeadline := some "2024-02-10"
      duration := "3 months"
      explanations := []
      contributors := [] } ]

/-- Insert `x` into `l` in front of the first element it compares at or
before. -/
def insertBy {α : Type} (le : α → α → Bool) (x : α) : List α → List α
  | [] => [x]
  | y :: ys => if le x y then x :: y :: ys else y :: insertBy le x ys

/-- Insertion sort by a boolean comparator (structural, so concrete runs
evaluate in the kernel). -/
def sortBy {α : Type} (le : α → α → Bool) : List α → List α
  | [] => []
  | x :: xs => insertBy le x (sortBy le xs)

/-- `Math.round` on a rational (JS rounds half away from zero upward). -/
def jsRound (q : ℚ) : Int := ⌊q + 1 / 2⌋

/-- The per-recommendation transformation `page.tsx` applies to the ML
payload before rendering. -/
def transformRec (rec : RecJson) : PageInternship :=
  { id := jsOrStr rec.internship_id (jsOrStr rec.idField "undefined")
    title := rec.title
    company := rec.organization
    location := match rec.location_city with
                | some c => if c = "" then "Remote" else c
                | none => "Remote"
    type' := if rec.remote_allowed then "remote" else "onsite"
    salary := jsOrStr rec.stipend "Competitive"
    skills := match rec.preferred_skills with
              | .arr xs => xs.map atomToString
              | v => if v.truthy then ((jsValToString v).splitOn ",").map String.trim
                     else []
    description := rec.description
    matchScore := jsRound (rec.score * 100)
    applicationDeadline := rec.application_deadline
    duration := match rec.duration_weeks with
                | some w => if w = 0 then "Flexible" else toString w ++ " weeks"
                | none => "Flexible"
    explanations := rec.match_reasons.take 4
    contributors :=
      (sortBy (fun a b => decide (b.2 ≤ a.2))
        (rec.component_percentages.map
          (fun nv => (nv.1.map (fun ch => if ch = '_' then ' ' else ch), nv.2)))).take 4 }

/-- What the page's `fetch('/api/recommendations')` handler sees. -/
inductive FetchResp where
  | notOk
  | okJson (success : Bool) (recommendations : Option (List RecJson))
deriving DecidableEq, Repr

/-- The state `handleProfileCompleteFromAuth` leaves the page in. -/
structure PageOutcome where
  state : String
  recommendations : List PageInternship
deriving DecidableEq, Repr

/-- `handleProfileCompleteFromAuth` of `page.tsx`, after the fetch comes
back: a non-ok response falls back to the mock cards; an ok response with
`success` and a `recommendations` field is transformed; anything else also
falls back to the mock cards.  Every branch ends in the
`recommendations` state. -/
def handleProfileCompleteFromAuth (authUser : UserProfileData) (resp : FetchResp) : PageOutcome :=
  match resp with
  | .notOk => { state := "recommendations", recommendations := generateMockRecommendations authUser }
  | .okJson success recs =>
    match success, recs with
    | true, some rs => { state := "recommendations", recommendations := rs.map transformRec }
    | _, _ => { state := "recommendations", recommendations := generateMockRecommendations authUser }

/-! ## The recommendation engine (Module-B ML)

`recommendation_engine.py`, `app.py` and `config.yml` are not in the
repository snapshot; only `Module-B ML/README.md` documents them.  The
definitions below are therefore modelled from the specification (§3–§4.7,
§6–§8 of the spec and the README's configuration section). -/

/-- An embedding vector. -/
abbrev Vec := List ℚ

/-- Modelled from the spec: the Internship record (§3), restricted to the
fields the scoring signals read. `eligibility_min_qualification` is the
ordinal 12th = 0 < diploma = 1 < ug = 2 < pg = 3; `posted_date` is a day
number. -/
structure Internship where
  internship_id : String
  title : String
  organization : String
  description : String
  preferred_skills : List String
  eligibility_min_qualification : Nat
  location_city : String
  location_state : String
  remote_allowed : Bool
  stipend : Option ℚ
  posted_date : Int
deriving DecidableEq, Repr

/-- Modelled from the spec: the CandidateProfile object (§3). -/
structure CandidateProfile where
  education_level : Nat
  skills : List String
  major_field : Option String
  preferred_sectors : List String
  preferred_locations : List String
  remote_ok : Bool
  stipend_pref : Option ℚ
  career_goal : Option String
deriving DecidableEq, Repr

/-- Modelled from the spec: the scoring-weight configuration (§4.5, README
`config.yml`). -/
structure ScoringWeights where
  embedding_similarity : ℚ
  skill_overlap : ℚ
  qualification_fit : ℚ
  location_match : ℚ
  stipend_match : ℚ
  recency : ℚ
deriving DecidableEq, Repr

/-- The documented default weights (similarity 0.60, skills 0.15,
qualification 0.10, location 0.10, stipend 0.03, recency 0.02). -/
def defaultWeights : ScoringWeights :=
  { embedding_similarity := 3 / 5
    skill_overlap := 3 / 20
    qualification_fit := 1 / 10
    location_match := 1 / 10
    stipend_match := 3 / 100
    recency := 1 / 50 }

/-- Sum of the six configured weights. -/
def weightSum (w : ScoringWeights) : ℚ :=
  w.embedding_similarity + w.skill_overlap + w.qualification_fit +
    w.location_match + w.stipend_match + w.recency

/-- All six weights are nonnegative. -/
def nonnegWeights (w : ScoringWeights) : Prop :=
  0 ≤ w.embedding_similarity ∧ 0 ≤ w.skill_overlap ∧ 0 ≤ w.qualification_fit ∧
    0 ≤ w.location_match ∧ 0 ≤ w.stipend_match ∧ 0 ≤ w.recency

/-- Modelled from the spec: the engine configuration surface (§6, README:
`max_results` default 5, `min_score_threshold` default 0.3,
`top_k_retrieval` default 20). -/
structure EngineConfig where
  weights : ScoringWeights
  top_k_retrieval : Nat
  max_results : Nat
  min_score_threshold : ℚ
deriving DecidableEq, Repr

/-- The documented default configuration. -/
def defaultConfig : EngineConfig :=
  { weights := defaultWeights
    top_k_retrieval := 20
    max_results := 5
    min_score_threshold := 3 / 10 }

/-- Clamp a rational into `[0,1]`. -/
def clamp01 (q : ℚ) : ℚ := max 0 (min 1 q)

/-- Modelled from the spec: candidate profile text synthesis (§4.2) —
skills, major field, preferred sectors, career goal, in that fixed order. -/
def profileText (p : CandidateProfile) : String :=
  String.intercalate " "
    (p.skills ++ [p.major_field.getD ""] ++ p.preferred_sectors ++ [p.career_goal.getD ""])

/-- Modelled from the spec: the Retriever (§4.4) — every listing's
similarity to the profile vector is computed (`sim` abstracts the cosine of
the external numeric library), normalised into `[0,1]` (negative cosine
treated as 0), and the `top_k` most similar listings are returned. -/
def retrieve (sim : Vec → Vec → ℚ) (artifact : List (Internship × Vec))
    (pvec : Vec) (topk : Nat) : List (Internship × ℚ) :=
  (sortBy (fun a b => decide (b.2 ≤ a.2))
    (artifact.map (fun iv => (iv.1, clamp01 (sim pvec iv.2))))).take topk

/-- `xs` starts with `pat`. -/
def leadsList (pat target : List Char) : Bool :=
  match pat, target with
  | [], _ => true
  | x :: xs, y :: ys => x == y && leadsList xs ys
  | _, _ => false

/-- `pat` occurs contiguously inside `ys`. -/
def insideList (pat : List Char) : List Char → Bool
  | [] => pat.isEmpty
  | b :: bs => leadsList pat (b :: bs) || insideList pat bs

/-- `a` occurs as a substring of `b`. -/
def strInside (a b : String) : Bool := insideList a.data b.data

/-- Modelled from the spec: fuzzy skill match (§4.5.2) — some candidate
skill other than `p` itself contains or is contained in `p`. -/
def fuzzyMatches (cand : List String) (p : String) : Bool :=
  cand.any (fun s => s != p && (strInside p s || strInside s p))

/-- Modelled from the spec: the credit one listing skill earns from the
candidate's skill set — full credit for an exact match, half credit for a
fuzzy match, none otherwise. -/
def skillCredit (cand : List String) (p : String) : ℚ :=
  if p ∈ cand then 1
  else if fuzzyMatches cand p then 1 / 2
  else 0

/-- Modelled from the spec: the skill-overlap component (§4.5.2) — total
credit over the listing's preferred skills, divided by a denominator that
rewards covering more of the listing's skill set. -/
def skill_overlap_score (cand : List String) (i : Internship) : ℚ :=
  (i.preferred_skills.map (skillCredit cand)).sum /
    max 1 (i.preferred_skills.length : ℚ)

/-- Modelled from the spec: qualification fit (§4.5.3) — at or above the
listing minimum scores highest, below minimum scores low but nonzero. -/
def qualification_fit_score (p : CandidateProfile) (i : Internship) : ℚ :=
  if i.eligibility_min_qualification ≤ p.education_level then 1 else 3 / 10

/-- Modelled from the spec: tiered location match (§4.5.4) — same city >
same state > remote-allowed-and-candidate-remote-ok > no match, each tier a
fixed constant. -/
def location_match_score (p : CandidateProfile) (i : Internship) : ℚ :=
  if p.preferred_locations.contains i.location_city then 1
  else if p.preferred_locations.contains i.location_state then 7 / 10
  else if i.remote_allowed && p.remote_ok then 1 / 2
  else 0

/-- Modelled from the spec: stipend match (§4.5.5) — absent listing stipend
(or no preference) is neutral, otherwise numeric proximity clamped into
`[0,1]`. -/
def stipend_match_score (p : CandidateProfile) (i : Internship) : ℚ :=
  match i.stipend, p.stipend_pref with
  | none, _ => 1 / 2
  | some _, none => 1 / 2
  | some st, some pref => clamp01 (1 - |st - pref| / max st (max pref 1))

/-- Modelled from the spec: recency (§4.5.6) — monotonically decreasing in
`now - posted_date`, bounded, with a floor of 1/10. -/
def recency_score (now : Int) (i : Internship) : ℚ :=
  max (1 / 10) (clamp01 (1 - ((max 0 (now - i.posted_date) : Int) : ℚ) / 365))

/-- The six raw component scores of one candidate listing. -/
structure ComponentScores where
  embedding_similarity : ℚ
  skill_overlap : ℚ
  qualification_fit : ℚ
  location_match : ℚ
  stipend_match : ℚ
  recency : ℚ
deriving DecidableEq, Repr

/-- Assemble the component scores of one retrieved listing (`simval` is the
already-normalised similarity handed over by the Retriever). -/
def componentScores (now : Int) (p : CandidateProfile) (i : Internship)
    (simval : ℚ) : ComponentScores :=
  { embedding_similarity := simval
    skill_overlap := skill_overlap_score p.skills i
    qualification_fit := qualification_fit_score p i
    location_match := location_match_score p i
    stipend_match := stipend_match_score p i
    recency := recency_score now i }

/-- Modelled from the spec: the weighted composite score (§4.5),
`Σ weight_i × raw_score_i`. -/
def overallScore (w : ScoringWeights) (c : ComponentScores) : ℚ :=
  w.embedding_similarity * c.embedding_similarity + w.skill_overlap * c.skill_overlap +
    w.qualification_fit * c.qualification_fit + w.location_match * c.location_match +
    w.stipend_match * c.stipend_match + w.recency * c.recency

/-- One scored recommendation as surfaced in the response, with its
scoring breakdown (`weights_used` mirrors the response field of the same
name). -/
structure ScoredRecommendation where
  internship : Internship
  overall_score : ℚ
  components : ComponentScores
  weights_used : ScoringWeights
deriving DecidableEq, Repr

/-- The ranking order of the output (§4.5): final score descending, ties by
`posted_date` descending, then `internship_id` ascending. -/
def recOrder (a b : ScoredRecommendation) : Prop :=
  b.overall_score < a.overall_score ∨
    (a.overall_score = b.overall_score ∧
      (b.internship.posted_date < a.internship.posted_date ∨
        (a.internship.posted_date = b.internship.posted_date ∧
          a.internship.internship_id ≤ b.internship.internship_id)))

instance (a b : ScoredRecommendation) : Decidable (recOrder a b) := by
  unfold recOrder; exact inferInstance

/-- Boolean comparator for the sort. -/
def recLE (a b : ScoredRecommendation) : Bool := decide (recOrder a b)

/-- Score every retrieved candidate. -/
def scoredList (cfg : EngineConfig) (now : Int) (p : CandidateProfile)
    (retrieved : List (Internship × ℚ)) : List ScoredRecommendation :=
  retrieved.map (fun iv =>
    { internship := iv.1
      overall_score := overallScore cfg.weights (componentScores now p iv.1 iv.2)
      components := componentScores now p iv.1 iv.2
      weights_used := cfg.weights })

/-- Candidates surviving the minimum-score threshold (§4.5: candidates
below the threshold are dropped). -/
def keptList (cfg : EngineConfig) (now : Int) (p : CandidateProfile)
    (retrieved : List (Internship × ℚ)) : List ScoredRecommendation :=
  (scoredList cfg now p retrieved).filter
    (fun r => cfg.min_score_threshold ≤ r.overall_score)

/-- Modelled from the spec: the Reranker's output (§4.5) — the surviving
candidates sorted by `recOrder` and truncated to `max_results`. -/
def rerank (cfg : EngineConfig) (now : Int) (p : CandidateProfile)
    (retrieved : List (Internship × ℚ)) : List ScoredRecommendation :=
  (sortBy recLE (keptList cfg now p retrieved)).take cfg.max_results

/-- Modelled from the spec: the recommendation request at the service
boundary (§6) — all fields optional except `education_level` and `skills`;
`now` is the clock reading the recency signal uses while the request is
handled. -/
structure RecRequest where
  education_level : Option String
  skills : Option (List String)
  major_field : Option String
  preferred_sectors : Option (List String)
  preferred_locations : Option (List String)
  remote_ok : Option Bool
  stipend_pref : Option ℚ
  career_goal : Option String
  now : Int
deriving DecidableEq, Repr

/-- Education ordinal of the request's text field. -/
def eduOrdinal (s : String) : Nat :=
  if s = "12th" then 0
  else if s = "diploma" then 1
  else if s = "ug" then 2
  else if s = "pg" then 3
  else 0

/-- Modelled from the spec: request validation (§7) — the names of the
missing required profile fields, reported with field-level detail.
`skills` is required non-empty. -/
def missingFields (req : RecRequest) : List String :=
  (if req.education_level.isNone then ["education_level"] else []) ++
    (if req.skills.getD [] = [] then ["skills"] else [])

/-- Build the candidate profile of a validated request. -/
def toProfile (req : RecRequest) : CandidateProfile :=
  { education_level := eduOrdinal ((req.education_level).getD "")
    skills := req.skills.getD []
    major_field := req.major_field
    preferred_sectors := (req.preferred_sectors).getD []
    preferred_locations := (req.preferred_locations).getD []
    remote_ok := (req.remote_ok).getD false
    stipend_pref := req.stipend_pref
    career_goal := req.career_goal }

/-- The service's successful response envelope (§6). -/
structure RecResponse where
  success : Bool
  recommendations : List ScoredRecommendation
  total_recommendations : Nat
deriving DecidableEq, Repr

/-- Result of one recommendation request. -/
inductive RecResult where
  | validationError (fields : List String)
  | response (r : RecResponse)
deriving DecidableEq, Repr

/-- The recommendations carried by a result (a validation error carries
none). -/
def resultRecs : RecResult → List ScoredRecommendation
  | .validationError _ => []
  | .response r => r.recommendations

/-- Modelled from the spec: the Recommendation Service request path
(§4.7, §7) — validation first (a `ValidationError` performs no index
query), then embed → retrieve → rerank, and a success envelope even when
the surviving set is empty (§7 `EmptyResultSet` is not an error).  The
second component records whether the index was queried. -/
def recommendService (embed : String → Vec) (sim : Vec → Vec → ℚ)
    (cfg : EngineConfig) (artifact : List (Internship × Vec))
    (req : RecRequest) : RecResult × Bool :=
  match missingFields req with
  | f :: fs => (.validationError (f :: fs), false)
  | [] =>
    let p := toProfile req
    let out := rerank cfg req.now p
      (retrieve sim artifact (embed (profileText p)) cfg.top_k_retrieval)
    (.response { success := true, recommendations := out,
                 total_recommendations := out.length }, true)

/-- Modelled from the spec: the service state machine (§4.7) — a failed
load leaves the service in `Unavailable`, which rejects every request;
otherwise the loaded artifact is read-only shared state. -/
inductive ServiceState where
  | unavailable
  | serving (artifact : List (Internship × Vec))

/-- What the service answers one request. -/
inductive ServiceAnswer where
  | retrievalUnavailable
  | result (r : RecResult)

/-- Modelled from the spec: handling one request (§4.7, §5) — requests
never mutate the service state; an `Unavailable` service rejects with
`RetrievalUnavailable`. -/
def serviceHandle (embed : String → Vec) (sim : Vec → Vec → ℚ) (cfg : EngineConfig)
    (s : ServiceState) (req : RecRequest) : ServiceState × ServiceAnswer :=
  match s with
  | .unavailable => (s, .retrievalUnavailable)
  | .serving artifact => (s, .result (recommendService embed sim cfg artifact req).1)

/-! ## Shared concrete inputs for witnesses -/

/-- An embedding stub for concrete runs. -/
def zeroEmbed : String → Vec := fun _ => []

/-- A similarity stub that makes every listing maximally similar. -/
def oneSim : Vec → Vec → ℚ := fun _ _ => 1

/-- A one-listing catalog entry. -/
def i0 : Internship :=
  { internship_id := "INT1"
    title := "Data Analysis Intern"
    organization := "Tech Company"
    description := "python sql data analysis"
    preferred_skills := ["python"]
    eligibility_min_qualification := 2
    location_city := "Mumbai"
    location_state := "Maharashtra"
    remote_allowed := false
    stipend := none
    posted_date := 0 }

/-- A one-listing index artifact. -/
def artifact0 : List (Internship × Vec) := [(i0, [])]

/-- A minimal valid recommendation request. -/
def req0 : RecRequest :=
  { education_level := some "ug"
    skills := some ["python"]
    major_field := none
    preferred_sectors := none
    preferred_locations := none
    remote_ok := none
    stipend_pref := none
    career_goal := none
    now := 0 }

/-- The same request with the `skills` field missing. -/
def reqNoSkills : RecRequest :=
  { req0 with skills := none }

/-- The candidate profile `req0` validates into. -/
def profile0 : CandidateProfile :=
  { education_level := 2
    skills := ["python"]
    major_field := none
    preferred_sectors := []
    preferred_locations := []
    remote_ok := false
    stipend_pref := none
    career_goal := none }

/-- The component scores of `i0` for `profile0` at similarity 1. -/
def comp0 : ComponentScores :=
  { embedding_similarity := 1
    skill_overlap := 1
    qualification_fit := 1
    location_match := 0
    stipend_match := 1 / 2
    recency := 1 }

/-- The scored recommendation the defaults produce for `i0`/`profile0`. -/
def r0 : ScoredRecommendation :=
  { internship := i0
    overall_score := 177 / 200
    components := comp0
    weights_used := defaultWeights }

/-- A configuration whose threshold exceeds every attainable score. -/
def highThresholdConfig : EngineConfig :=
  { defaultConfig with min_score_threshold := 2 }

/-- The empty user-profiles table. -/
def emptyDb : Db := fun _ => none

/-- A sample logged-in profile for the page handler. -/
def sampleAuthUser : UserProfileData :=
  { name := some "Asha"
    email := some "asha@example.com"
    educationLevel := some "ug"
    majorField := none
    skills := .arr [.str "python"]
    preferredSectors := .arr []
    preferredLocations := .arr [.str "Mumbai"]
    remoteOk := .bool false
    durationWeeksPref := none
    stipendPref := none
    careerGoal := none }

/-- A users-route body whose `skills` is a non-empty string, not an array
(JS accepts it: `"python".length === 0` is false). -/
def stringSkillsBody : UsersBody :=
  { name := none
    email := some "someone@example.com"
    educationLevel := .str "ug"
    majorField := none
    skills := .str "python"
    preferredSectors := .undef
    careerGoal := none
    preferredLocations := .undef
    remoteOk := .undef
    availabilityStart := none
    durationWeeksPref := none
    stipendPref := none }

/-- A users-route body carrying only the two required fields. -/
def minimalBody : UsersBody :=
  { name := none
    email := none
    educationLevel := .str "ug"
    majorField := none
    skills := .arr [.str "python"]
    preferredSectors := .undef
    careerGoal := none
    preferredLocations := .undef
    remoteOk := .undef
    availabilityStart := none
    durationWeeksPref := none
    stipendPref := none }

/-- A users-route body whose `skills` field is absent. -/
def missingSkillsBody : UsersBody :=
  { minimalBody with skills := .undef }

/-- A users-route body for the save-then-fetch round trip. -/
def roundTripBody : UsersBody :=
  { name := some "Asha"
    email := some "asha@example.com"
    educationLevel := .str "ug"
    majorField := none
    skills := .arr [.str "python", .str "sql"]
    preferredSectors := .arr []
    careerGoal := none
    preferredLocations := .arr [.str "Mumbai"]
    remoteOk := .bool false
    availabilityStart := none
    durationWeeksPref := none
    stipendPref := none }

/-! ## Concrete evaluation lemmas -/

/-- `req0` validates into `profile0`. -/
theorem toProfile_req0 : toProfile req0 = profile0 := by decide

/-- The one-listing catalog retrieved for `req0` with the constant
similarity stub. -/
theorem retrieve_concrete :
    retrieve oneSim artifact0 (zeroEmbed (profileText (toProfile req0))) 20 = [(i0, 1)] := by
  simp [retrieve, artifact0, oneSim, clamp01, sortBy, insertBy]

/-- The six component scores of `i0` for `profile0` at similarity 1. -/
theorem componentScores_concrete : componentScores 0 profile0 i0 1 = comp0 := by
  norm_num [componentScores, comp0, skill_overlap_score, skillCredit, fuzzyMatches,
    qualification_fit_score, location_match_score, stipend_match_score, recency_score,
    clamp01, i0, profile0, max_def, min_def, List.contains, List.elem]

/-- The default-weight composite of `comp0`. -/
theorem overallScore_comp0 : overallScore defaultWeights comp0 = 177 / 200 := by
  norm_num [overallScore, comp0, defaultWeights]

/-- With a threshold of 2 the one candidate of the one-listing catalog is
filtered out. -/
theorem keptList_highThreshold_empty :
    keptList highThresholdConfig req0.now (toProfile req0)
      (retrieve oneSim artifact0 (zeroEmbed (profileText (toProfile req0)))
        highThresholdConfig.top_k_retrieval) = [] := by
  rw [show highThresholdConfig.top_k_retrieval = 20 from rfl, retrieve_concrete,
    show req0.now = (0 : Int) from rfl, toProfile_req0]
  simp only [keptList, scoredList, List.map]
  rw [componentScores_concrete, show highThresholdConfig.weights = defaultWeights from rfl,
    overallScore_comp0]
  have hth : ¬ (highThresholdConfig.min_score_threshold ≤ (177 / 200 : ℚ)) := by
    norm_num [highThresholdConfig, defaultConfig]
  simp [hth]

/-- The full default-configuration run on `artifact0`/`req0` surfaces
exactly `r0`. -/
theorem run_concrete :
    resultRecs (recommendService zeroEmbed oneSim defaultConfig artifact0 req0).1 = [r0] := by
  have hv : missingFields req0 = [] := by decide
  simp only [recommendService, hv, resultRecs]
  rw [show defaultConfig.top_k_retrieval = 20 from rfl, retrieve_concrete,
    show req0.now = (0 : Int) from rfl, toProfile_req0]
  simp only [rerank, keptList, scoredList, List.map]
  rw [componentScores_concrete, show defaultConfig.weights = defaultWeights from rfl,
    overallScore_comp0]
  have hth : (3 / 10 : ℚ) ≤ 177 / 200 := by norm_num
  simp [defaultConfig, List.filter_cons, List.filter_nil, decide_eq_true_eq, hth,
    sortBy, insertBy, r0]

/-! ## Theorems for the claims -/

/-- Claim C9: given the same index artifact and the same request (profile
and clock reading), two runs of the service produce identical results —
handling a request leaves the service state unchanged, and a second
identical request gets the byte-for-byte identical answer (same ranking,
same scores). -/
theorem c9_deterministic_replay (embed : String → Vec) (sim : Vec → Vec → ℚ)
    (cfg : EngineConfig) (s : ServiceState) (req : RecRequest) :
    (serviceHandle embed sim cfg s req).1 = s ∧
    (serviceHandle embed sim cfg (serviceHandle embed sim cfg s req).1 req).2 =
      (serviceHandle embed sim cfg s req).2 := by
  cases s <;> simp [serviceHandle]

/-- Claim C2: a recommendation request whose `skills` field is missing is
answered with a `ValidationError` carrying the field name `skills`, and no
index query is performed. -/
theorem c2_missing_skills_validation (embed : String → Vec) (sim : Vec → Vec → ℚ)
    (cfg : EngineConfig) (artifact : List (Internship × Vec)) (req : RecRequest)
    (h : req.skills = none) :
    (recommendService embed sim cfg artifact req).2 = false ∧
    ∃ fs, (recommendService embed sim cfg artifact req).1 = .validationError fs ∧
      "skills" ∈ fs := by
  have hm : missingFields req =
      (if req.education_level.isNone then ["education_level"] else []) ++ ["skills"] := by
    simp [missingFields, h]
  by_cases he : req.education_level.isNone
  · rw [he, if_pos rfl] at hm
    refine ⟨?_, ["education_level", "skills"], ?_, by simp⟩ <;>
      simp [recommendService, hm]
  · rw [if_neg he] at hm
    refine ⟨?_, ["skills"], ?_, by simp⟩ <;>
      simp [recommendService, hm]

/-- Witness for C2 at a concrete request with no `skills` field. -/
theorem c2_missing_skills_validation_witness :
    (recommendService zeroEmbed oneSim defaultConfig artifact0 reqNoSkills).2 = false ∧
    ∃ fs, (recommendService zeroEmbed oneSim defaultConfig artifact0 reqNoSkills).1 =
        .validationError fs ∧ "skills" ∈ fs :=
  c2_missing_skills_validation zeroEmbed oneSim defaultConfig artifact0 reqNoSkills rfl

/-- Claim C1 (counterexample): with the ML service unavailable (the fetch
to `/api/recommendations` not ok), the page handler does NOT surface the
failure — it substitutes three mock recommendations, so recommendations ARE
returned to the caller through a degraded path. -/
theorem c1_counterexample_mock_fallback :
    (handleProfileCompleteFromAuth sampleAuthUser .notOk).recommendations.length = 3 ∧
    (handleProfileCompleteFromAuth sampleAuthUser .notOk).recommendations ≠ [] := by
  constructor <;> decide

/-- Claim C1 (amended): when the ML service is unavailable, the
recommendations API route itself does fail the whole request with a JSON
error (status 400/404/500) carrying no recommendations; but the page-level
handler then falls back to the three hard-coded mock recommendations
instead of surfacing the failure. -/
theorem c1_api_fails_ui_substitutes_mocks (email : Option String) (db : Db)
    (status : Nat) (u : UserProfileData) :
    (∃ st msg, recommendationsPOST email db (.notOk status) = .jsonError st msg) ∧
    handleProfileCompleteFromAuth u .notOk =
      { state := "recommendations", recommendations := generateMockRecommendations u } ∧
    (generateMockRecommendations u).length = 3 := by
  refine ⟨?_, rfl, by simp [generateMockRecommendations]⟩
  match email with
  | none => exact ⟨400, "Email is required to get recommendations", rfl⟩
  | some e =>
    by_cases he : e = ""
    · exact ⟨400, "Email is required to get recommendations",
        by simp [recommendationsPOST, he]⟩
    · match hd : db e with
      | none => exact ⟨404, "User profile not found. Please create a profile first.",
          by simp [recommendationsPOST, he, hd]⟩
      | some u1 => exact ⟨500, "Failed to get recommendations from ML service",
          by simp [recommendationsPOST, he, hd]⟩

/-- Claim C3: on a valid request, when below-threshold filtering removes
every candidate, the service still answers success with an empty
recommendation list and `total_recommendations = 0` — never an error. -/
theorem c3_empty_after_filter_is_success (embed : String → Vec) (sim : Vec → Vec → ℚ)
    (cfg : EngineConfig) (artifact : List (Internship × Vec)) (req : RecRequest)
    (hvalid : missingFields req = [])
    (hempty : keptList cfg req.now (toProfile req)
      (retrieve sim artifact (embed (profileText (toProfile req))) cfg.top_k_retrieval) = []) :
    recommendService embed sim cfg artifact req =
      (.response { success := true, recommendations := [], total_recommendations := 0 },
        true) := by
  simp [recommendService, hvalid, rerank, hempty, sortBy]

/-- Witness for C3: with a threshold of 2 every candidate of the
one-listing catalog is filtered out, and the response is an empty success. -/
theorem c3_empty_after_filter_is_success_witness :
    recommendService zeroEmbed oneSim highThresholdConfig artifact0 req0 =
      (.response { success := true, recommendations := [], total_recommendations := 0 },
        true) :=
  c3_empty_after_filter_is_success zeroEmbed oneSim highThresholdConfig artifact0 req0
    (by decide) keptList_highThreshold_empty

/-- Membership in an insertion. -/
theorem mem_insertBy {α : Type} (le : α → α → Bool) (x a : α) (l : List α) :
    a ∈ insertBy le x l ↔ a = x ∨ a ∈ l := by
  induction l with
  | nil => simp [insertBy]
  | cons y ys ih =>
    simp only [insertBy]
    split
    · simp [List.mem_cons]
    · simp only [List.mem_cons, ih]
      tauto

/-- Sorting permutes membership. -/
theorem mem_sortBy {α : Type} (le : α → α → Bool) (a : α) (l : List α) :
    a ∈ sortBy le l ↔ a ∈ l := by
  induction l with
  | nil => simp [sortBy]
  | cons x xs ih => simp [sortBy, mem_insertBy, ih]

/-- Inserting into a sorted list keeps it sorted, for a transitive total
comparator. -/
theorem pairwise_insertBy {α : Type} {le : α → α → Bool}
    (htrans : ∀ a b c, le a b = true → le b c = true → le a c = true)
    (htotal : ∀ a b, le a b = true ∨ le b a = true)
    (x : α) {l : List α} (hl : l.Pairwise (fun a b => le a b = true)) :
    (insertBy le x l).Pairwise (fun a b => le a b = true) := by
  induction l with
  | nil => simp [insertBy]
  | cons y ys ih =>
    rcases List.pairwise_cons.mp hl with ⟨hy, hys⟩
    simp only [insertBy]
    split
    case isTrue hxy =>
      refine List.pairwise_cons.mpr ⟨?_, hl⟩
      intro z hz
      rcases List.mem_cons.mp hz with rfl | hz2
      · exact hxy
      · exact htrans _ _ _ hxy (hy z hz2)
    case isFalse hxy =>
      have hyx : le y x = true := by
        rcases htotal x y with h | h
        · exact absurd h hxy
        · exact h
      refine List.pairwise_cons.mpr ⟨?_, ih hys⟩
      intro z hz
      rcases (mem_insertBy le x z ys).mp hz with rfl | hz2
      · exact hyx
      · exact hy z hz2

/-- Insertion sort sorts, for a transitive total comparator. -/
theorem pairwise_sortBy {α : Type} {le : α → α → Bool}
    (htrans : ∀ a b c, le a b = true → le b c = true → le a c = true)
    (htotal : ∀ a b, le a b = true ∨ le b a = true) (l : List α) :
    (sortBy le l).Pairwise (fun a b => le a b = true) := by
  induction l with
  | nil => simp [sortBy]
  | cons x xs ih => exact pairwise_insertBy htrans htotal x ih

/-- The ranking order is transitive. -/
theorem recOrder_trans (a b c : ScoredRecommendation) :
    recOrder a b → recOrder b c → recOrder a c := by
  intro hab hbc
  rcases hab with h1 | ⟨e1, h1⟩ <;> rcases hbc with h2 | ⟨e2, h2⟩
  · exact Or.inl (h2.trans h1)
  · exact Or.inl (by rw [← e2]; exact h1)
  · exact Or.inl (by rw [e1]; exact h2)
  · refine Or.inr ⟨e1.trans e2, ?_⟩
    rcases h1 with p1 | ⟨pe1, i1⟩ <;> rcases h2 with p2 | ⟨pe2, i2⟩
    · exact Or.inl (p2.trans p1)
    · exact Or.inl (by rw [← pe2]; exact p1)
    · exact Or.inl (by rw [pe1]; exact p2)
    · exact Or.inr ⟨pe1.trans pe2, i1.trans i2⟩

/-- The ranking order is total. -/
theorem recOrder_total (a b : ScoredRecommendation) : recOrder a b ∨ recOrder b a := by
  rcases lt_trichotomy a.overall_score b.overall_score with h | h | h
  · exact Or.inr (Or.inl h)
  · rcases lt_trichotomy a.internship.posted_date b.internship.posted_date with h2 | h2 | h2
    · exact Or.inr (Or.inr ⟨h.symm, Or.inl h2⟩)
    · rcases le_total a.internship.internship_id b.internship.internship_id with h3 | h3
      · exact Or.inl (Or.inr ⟨h, Or.inr ⟨h2, h3⟩⟩)
      · exact Or.inr (Or.inr ⟨h.symm, Or.inr ⟨h2.symm, h3⟩⟩)
    · exact Or.inl (Or.inr ⟨h, Or.inl h2⟩)
  · exact Or.inl (Or.inl h)

/-- The boolean comparator is transitive. -/
theorem recLE_trans (a b c : ScoredRecommendation) :
    recLE a b = true → recLE b c = true → recLE a c = true := fun hab hbc =>
  decide_eq_true (recOrder_trans a b c (of_decide_eq_true hab) (of_decide_eq_true hbc))

/-- The boolean comparator is total. -/
theorem recLE_total (a b : ScoredRecommendation) :
    recLE a b = true ∨ recLE b a = true := by
  rcases recOrder_total a b with h | h
  · exact Or.inl (decide_eq_true h)
  · exact Or.inr (decide_eq_true h)

/-- Claim C6: no returned recommendation scores below the configured
minimum score threshold — candidates below it are dropped before output. -/
theorem c6_threshold_law (embed : String → Vec) (sim : Vec → Vec → ℚ)
    (cfg : EngineConfig) (artifact : List (Internship × Vec)) (req : RecRequest)
    (r : ScoredRecommendation)
    (hr : r ∈ resultRecs (recommendService embed sim cfg artifact req).1) :
    cfg.min_score_threshold ≤ r.overall_score := by
  rcases h : missingFields req with _ | ⟨f, fs⟩
  · simp only [recommendService, h, resultRecs, rerank] at hr
    have hr2 := (mem_sortBy _ _ _).mp (List.take_subset _ _ hr)
    simp only [keptList, List.mem_filter] at hr2
    exact of_decide_eq_true hr2.2
  · simp [recommendService, h, resultRecs] at hr

/-- Witness for C6: the default run surfaces `r0`, whose score meets the
default threshold. -/
theorem c6_threshold_law_witness :
    defaultConfig.min_score_threshold ≤ r0.overall_score :=
  c6_threshold_law zeroEmbed oneSim defaultConfig artifact0 req0 r0
    (by rw [run_concrete]; exact List.mem_singleton.mpr rfl)

/-- Claim C7: the returned recommendations are sorted by final score
descending with ties broken by `posted_date` descending then
`internship_id` ascending, and the list is truncated to at most
`max_results` entries (default 5). -/
theorem c7_sorted_and_truncated (embed : String → Vec) (sim : Vec → Vec → ℚ)
    (cfg : EngineConfig) (artifact : List (Internship × Vec)) (req : RecRequest) :
    List.Pairwise recOrder (resultRecs (recommendService embed sim cfg artifact req).1) ∧
    (resultRecs (recommendService embed sim cfg artifact req).1).length ≤ cfg.max_results ∧
    defaultConfig.max_results = 5 := by
  refine ⟨?_, ?_, rfl⟩
  · rcases h : missingFields req with _ | ⟨f, fs⟩
    · simp only [recommendService, h, resultRecs, rerank]
      have hp := pairwise_sortBy recLE_trans recLE_total
        (keptList cfg req.now (toProfile req)
          (retrieve sim artifact (embed (profileText (toProfile req))) cfg.top_k_retrieval))
      exact ((hp.sublist (List.take_sublist _ _)).imp fun hab => of_decide_eq_true hab)
    · simp [recommendService, h, resultRecs]
  · rcases h : missingFields req with _ | ⟨f, fs⟩
    · simp only [recommendService, h, resultRecs, rerank]
      exact List.length_take_le _ _
    · simp [recommendService, h, resultRecs]

/-- `clamp01` stays above 0. -/
theorem clamp01_nonneg (q : ℚ) : 0 ≤ clamp01 q := le_max_left 0 _

/-- `clamp01` stays below 1. -/
theorem clamp01_le_one (q : ℚ) : clamp01 q ≤ 1 := max_le (by norm_num) (min_le_left _ _)

/-- A skill credit is nonnegative. -/
theorem skillCredit_nonneg (cand : List String) (p : String) :
    0 ≤ skillCredit cand p := by
  unfold skillCredit; split_ifs <;> norm_num

/-- A skill credit is at most 1. -/
theorem skillCredit_le_one (cand : List String) (p : String) :
    skillCredit cand p ≤ 1 := by
  unfold skillCredit; split_ifs <;> norm_num

/-- Enlarging the candidate skill set preserves fuzzy matches. -/
theorem fuzzyMatches_mono {S T : List String} (hsub : ∀ x ∈ S, x ∈ T) (p : String)
    (h : fuzzyMatches S p = true) : fuzzyMatches T p = true := by
  rcases List.any_eq_true.mp h with ⟨s, hs, hprop⟩
  exact List.any_eq_true.mpr ⟨s, hsub s hs, hprop⟩

/-- Enlarging the candidate skill set never lowers a skill credit. -/
theorem skillCredit_mono {S T : List String} (hsub : ∀ x ∈ S, x ∈ T) (p : String) :
    skillCredit S p ≤ skillCredit T p := by
  unfold skillCredit
  by_cases h1 : p ∈ S
  · rw [if_pos h1, if_pos (hsub p h1)]
  · rw [if_neg h1]
    by_cases h2 : fuzzyMatches S p = true
    · rw [if_pos h2]
      by_cases h3 : p ∈ T
      · rw [if_pos h3]; norm_num
      · rw [if_neg h3, if_pos (fuzzyMatches_mono hsub p h2)]
    · rw [if_neg h2]
      split_ifs <;> norm_num

/-- The skill-overlap denominator is positive. -/
theorem skillDenom_pos (i : Internship) :
    (0 : ℚ) < max 1 (i.preferred_skills.length : ℚ) :=
  lt_of_lt_of_le zero_lt_one (le_max_left _ _)

/-- The skill-overlap component is nonnegative. -/
theorem skill_overlap_nonneg (cand : List String) (i : Internship) :
    0 ≤ skill_overlap_score cand i := by
  unfold skill_overlap_score
  refine div_nonneg (List.sum_nonneg ?_) (le_of_lt (skillDenom_pos i))
  intro x hx
  rcases List.mem_map.mp hx with ⟨p, _, rfl⟩
  exact skillCredit_nonneg _ _

/-- The skill-overlap component is at most 1. -/
theorem skill_overlap_le_one (cand : List String) (i : Internship) :
    skill_overlap_score cand i ≤ 1 := by
  unfold skill_overlap_score
  rw [div_le_one (skillDenom_pos i)]
  calc (i.preferred_skills.map (skillCredit cand)).sum
      ≤ (i.preferred_skills.map (skillCredit cand)).length • (1 : ℚ) :=
        List.sum_le_card_nsmul _ _ (by
          intro x hx
          rcases List.mem_map.mp hx with ⟨p, _, rfl⟩
          exact skillCredit_le_one _ _)
    _ = (i.preferred_skills.length : ℚ) := by simp [nsmul_eq_mul]
    _ ≤ max 1 (i.preferred_skills.length : ℚ) := le_max_right _ _

/-- Claim C8: for a fixed listing, enlarging the candidate's skill set
(any superset) never decreases the skill-overlap component score. -/
theorem c8_skill_overlap_monotone (i : Internship) (S T : List String)
    (hsub : ∀ x ∈ S, x ∈ T) :
    skill_overlap_score S i ≤ skill_overlap_score T i := by
  unfold skill_overlap_score
  exact (div_le_div_iff_of_pos_right (skillDenom_pos i)).mpr
    (List.sum_le_sum fun p _ => skillCredit_mono hsub p)

/-- Witness for C8 on a concrete subset pair against `i0`. -/
theorem c8_skill_overlap_monotone_witness :
    skill_overlap_score ["python"] i0 ≤ skill_overlap_score ["python", "sql"] i0 :=
  c8_skill_overlap_monotone i0 ["python"] ["python", "sql"] (by decide)

/-- Lies in the unit interval. -/
def inUnit (q : ℚ) : Prop := 0 ≤ q ∧ q ≤ 1

/-- `clamp01` lands in the unit interval. -/
theorem clamp01_inUnit (q : ℚ) : inUnit (clamp01 q) :=
  ⟨clamp01_nonneg q, clamp01_le_one q⟩

/-- All six raw component scores are normalised into `[0,1]` whenever the
similarity handed over by the Retriever is. -/
theorem componentScores_inUnit (now : Int) (p : CandidateProfile) (i : Internship)
    (q : ℚ) (hq : inUnit q) :
    inUnit (componentScores now p i q).embedding_similarity ∧
    inUnit (componentScores now p i q).skill_overlap ∧
    inUnit (componentScores now p i q).qualification_fit ∧
    inUnit (componentScores now p i q).location_match ∧
    inUnit (componentScores now p i q).stipend_match ∧
    inUnit (componentScores now p i q).recency := by
  refine ⟨hq, ⟨skill_overlap_nonneg _ _, skill_overlap_le_one _ _⟩, ?_, ?_, ?_, ?_⟩
  · unfold componentScores qualification_fit_score
    split_ifs <;> constructor <;> norm_num
  · unfold componentScores location_match_score
    split_ifs <;> constructor <;> norm_num
  · unfold componentScores stipend_match_score
    rcases i.stipend with _ | st
    · show inUnit (1 / 2 : ℚ)
      exact ⟨by norm_num, by norm_num⟩
    · rcases p.stipend_pref with _ | pref
      · show inUnit (1 / 2 : ℚ)
        exact ⟨by norm_num, by norm_num⟩
      · show inUnit (clamp01 (1 - |st - pref| / max st (max pref 1)))
        exact clamp01_inUnit _
  · unfold componentScores recency_score
    constructor
    · exact le_trans (by norm_num) (le_max_left _ _)
    · exact max_le (by norm_num) (clamp01_le_one _)

/-- A weighted composite of unit-interval component scores under
nonnegative weights summing to 1 stays in `[0,1]`. -/
theorem overallScore_inUnit (w : ScoringWeights) (c : ComponentScores)
    (hw : nonnegWeights w) (hsum : weightSum w = 1)
    (h1 : inUnit c.embedding_similarity) (h2 : inUnit c.skill_overlap)
    (h3 : inUnit c.qualification_fit) (h4 : inUnit c.location_match)
    (h5 : inUnit c.stipend_match) (h6 : inUnit c.recency) :
    inUnit (overallScore w c) := by
  obtain ⟨w1, w2, w3, w4, w5, w6⟩ := hw
  obtain ⟨h1a, h1b⟩ := h1
  obtain ⟨h2a, h2b⟩ := h2
  obtain ⟨h3a, h3b⟩ := h3
  obtain ⟨h4a, h4b⟩ := h4
  obtain ⟨h5a, h5b⟩ := h5
  obtain ⟨h6a, h6b⟩ := h6
  unfold overallScore
  unfold weightSum at hsum
  constructor
  · have p1 := mul_nonneg w1 h1a
    have p2 := mul_nonneg w2 h2a
    have p3 := mul_nonneg w3 h3a
    have p4 := mul_nonneg w4 h4a
    have p5 := mul_nonneg w5 h5a
    have p6 := mul_nonneg w6 h6a
    linarith
  · have p1 := mul_le_of_le_one_right w1 h1b
    have p2 := mul_le_of_le_one_right w2 h2b
    have p3 := mul_le_of_le_one_right w3 h3b
    have p4 := mul_le_of_le_one_right w4 h4b
    have p5 := mul_le_of_le_one_right w5 h5b
    have p6 := mul_le_of_le_one_right w6 h6b
    linarith

/-- Every retrieved pair is a catalog listing with its clamped similarity. -/
theorem mem_retrieve (sim : Vec → Vec → ℚ) (artifact : List (Internship × Vec))
    (pvec : Vec) (topk : Nat) (iv : Internship × ℚ)
    (h : iv ∈ retrieve sim artifact pvec topk) :
    ∃ av ∈ artifact, iv = (av.1, clamp01 (sim pvec av.2)) := by
  unfold retrieve at h
  have h2 := (mem_sortBy _ _ _).mp (List.take_subset _ _ h)
  rcases List.mem_map.mp h2 with ⟨av, hav, heq⟩
  exact ⟨av, hav, heq.symm⟩

/-- Provenance of a surfaced recommendation: its reported weights are the
configured ones and its score is the weighted composite of the component
scores of some listing at a similarity already normalised into `[0,1]`. -/
theorem mem_resultRecs (embed : String → Vec) (sim : Vec → Vec → ℚ)
    (cfg : EngineConfig) (artifact : List (Internship × Vec)) (req : RecRequest)
    (r : ScoredRecommendation)
    (hr : r ∈ resultRecs (recommendService embed sim cfg artifact req).1) :
    r.weights_used = cfg.weights ∧
    ∃ i q, inUnit q ∧
      r.overall_score = overallScore cfg.weights (componentScores req.now (toProfile req) i q) := by
  rcases h : missingFields req with _ | ⟨f, fs⟩
  · simp only [recommendService, h, resultRecs, rerank] at hr
    have hr2 := (mem_sortBy _ _ _).mp (List.take_subset _ _ hr)
    simp only [keptList, List.mem_filter, scoredList] at hr2
    rcases List.mem_map.mp hr2.1 with ⟨iv, hiv, heq⟩
    rcases mem_retrieve _ _ _ _ _ hiv with ⟨av, _, hivq⟩
    refine ⟨by rw [← heq], iv.1, iv.2, ?_, by rw [← heq]⟩
    rw [hivq]
    exact clamp01_inUnit _
  · simp [recommendService, h, resultRecs] at hr

/-- Claim C5: under the configured weights (nonnegative, summing to 1 as
the configuration contract requires), every returned recommendation has
`overall_score` in `[0,1]`, and the weights reported in `weights_used` sum
to 1 within `1e-6`. -/
theorem c5_score_in_unit_and_weights_sum (embed : String → Vec) (sim : Vec → Vec → ℚ)
    (cfg : EngineConfig) (artifact : List (Internship × Vec)) (req : RecRequest)
    (hw : nonnegWeights cfg.weights) (hsum : weightSum cfg.weights = 1)
    (r : ScoredRecommendation)
    (hr : r ∈ resultRecs (recommendService embed sim cfg artifact req).1) :
    (0 ≤ r.overall_score ∧ r.overall_score ≤ 1) ∧
    |weightSum r.weights_used - 1| ≤ 1 / 1000000 := by
  rcases mem_resultRecs embed sim cfg artifact req r hr with ⟨hwu, i, q, hq, hscore⟩
  constructor
  · rw [hscore]
    rcases componentScores_inUnit req.now (toProfile req) i q hq with ⟨u1, u2, u3, u4, u5, u6⟩
    exact overallScore_inUnit _ _ hw hsum u1 u2 u3 u4 u5 u6
  · rw [hwu, hsum]
    norm_num

/-- Witness for C5: the default run surfaces `r0`, whose score is in the
unit interval and whose reported weights sum to 1. -/
theorem c5_score_in_unit_and_weights_sum_witness :
    (0 ≤ r0.overall_score ∧ r0.overall_score ≤ 1) ∧
    |weightSum r0.weights_used - 1| ≤ 1 / 1000000 :=
  c5_score_in_unit_and_weights_sum zeroEmbed oneSim defaultConfig artifact0 req0
    (by norm_num [nonnegWeights, defaultConfig, defaultWeights])
    (by norm_num [weightSum, defaultConfig, defaultWeights])
    r0 (by rw [run_concrete]; exact List.mem_singleton.mpr rfl)

/-- The users route rejects when the required-field check fires. -/
theorem usersPOST_rejects (tempEmail : String) (body : UsersBody) (db : Db)
    (h : (!body.educationLevel.truthy || !body.skills.truthy ||
      body.skills.lengthEqZero) = true) :
    usersPOST tempEmail body db =
      (.validationError 400 "Education level and at least one skill are required", db) := by
  unfold usersPOST
  rw [if_pos h]

/-- The users route accepts when the required-field check passes. -/
theorem usersPOST_accepts (tempEmail : String) (body : UsersBody) (db : Db)
    (h : (!body.educationLevel.truthy || !body.skills.truthy ||
      body.skills.lengthEqZero) = false) :
    (usersPOST tempEmail body db).1 =
      .success (jsOrStr body.email tempEmail) (jsOrStr body.name "Anonymous User") := by
  unfold usersPOST
  rw [if_neg (by simp [h])]

/-- Claim C4 (counterexample): the profile-save endpoint accepts a
submission whose `skills` is the non-empty STRING `"python"`, not an
array — `!"python"` is false and `"python".length === 0` is false — so
"accepted only if skills is a non-empty array" fails on the code. -/
theorem c4_counterexample_string_skills_accepted :
    (usersPOST "temp@internai.local" stringSkillsBody emptyDb).1 =
      .success "someone@example.com" "Anonymous User" ∧
    stringSkillsBody.skills = .str "python" := by
  constructor <;> decide

/-- Claim C4 (amended): a submission is accepted iff `educationLevel` is
truthy and `skills` is truthy with `length` not equal to 0 (in particular
every submission missing either required field is rejected with the 400
validation error and no profile row is created or updated, and a submission
carrying only those two fields is accepted); a truthy non-array `skills`
value such as a non-empty string also passes the check. -/
theorem c4_required_fields_validation (tempEmail : String) (body : UsersBody) (db : Db) :
    ((∃ e n, (usersPOST tempEmail body db).1 = .success e n) ↔
      (body.educationLevel.truthy = true ∧ body.skills.truthy = true ∧
        body.skills.lengthEqZero = false)) ∧
    ((body.educationLevel.truthy = false ∨ body.skills.truthy = false) →
      usersPOST tempEmail body db =
        (.validationError 400 "Education level and at least one skill are required", db)) := by
  constructor
  · constructor
    · rintro ⟨e, n, hsn⟩
      by_cases hcond : (!body.educationLevel.truthy || !body.skills.truthy ||
          body.skills.lengthEqZero) = true
      · rw [usersPOST_rejects tempEmail body db hcond] at hsn
        exact absurd hsn (by simp)
      · have hfalse := eq_false_of_ne_true hcond
        simp only [Bool.or_eq_false_iff, Bool.not_eq_false'] at hfalse
        exact ⟨hfalse.1.1, hfalse.1.2, hfalse.2⟩
    · rintro ⟨h1, h2, h3⟩
      have hfalse : (!body.educationLevel.truthy || !body.skills.truthy ||
          body.skills.lengthEqZero) = false := by rw [h1, h2, h3]; rfl
      exact ⟨_, _, usersPOST_accepts tempEmail body db hfalse⟩
  · intro h
    apply usersPOST_rejects
    rcases h with h | h <;> rw [h] <;> simp

/-- Witness for C4: the skills-less body is rejected with no write, and the
minimal two-field body is accepted. -/
theorem c4_required_fields_validation_witness :
    usersPOST "temp@internai.local" missingSkillsBody emptyDb =
      (.validationError 400 "Education level and at least one skill are required", emptyDb) ∧
    ∃ e n, (usersPOST "temp@internai.local" minimalBody emptyDb).1 = .success e n := by
  constructor
  · exact (c4_required_fields_validation "temp@internai.local" missingSkillsBody emptyDb).2
      (Or.inr (by decide))
  · exact ((c4_required_fields_validation "temp@internai.local" minimalBody emptyDb).1).mpr
      (by decide)

/-- Decoding a hex digit inverts encoding below 16. -/
theorem hexVal_hexDigit (n : Nat) (h : n < 16) : hexVal (hexDigit n) = some n := by
  interval_cases n <;> decide

/-- One step of the string round trip: the parser consumes the escape of
one character and decodes it back. -/
theorem parseStringBody_escape (c : Char) (cs rest : List Char) (tail : List Char)
    (ih : parseStringBody tail = some (cs, rest)) :
    parseStringBody (escapeChar c ++ tail) = some (c :: cs, rest) := by
  by_cases h1 : c = '"'
  · subst h1
    rw [show escapeChar '"' = ['\\', '"'] from rfl]
    simp only [List.cons_append, List.nil_append]
    rw [parseStringBody.eq_def]
    simp [ih]
  · by_cases h2 : c = '\\'
    · subst h2
      rw [show escapeChar '\\' = ['\\', '\\'] from rfl]
      simp only [List.cons_append, List.nil_append]
      rw [parseStringBody.eq_def]
      simp [ih]
    · by_cases h3 : c.toNat = 8
      · have hc : Char.ofNat 8 = c := by rw [← h3, Char.ofNat_toNat]
        rw [show escapeChar c = ['\\', 'b'] from by simp [escapeChar, h1, h2, h3]]
        simp only [List.cons_append, List.nil_append]
        rw [parseStringBody.eq_def]
        simp [ih]
        exact hc
      · by_cases h4 : c.toNat = 9
        · have hc : Char.ofNat 9 = c := by rw [← h4, Char.ofNat_toNat]
          rw [show escapeChar c = ['\\', 't'] from by simp [escapeChar, h1, h2, h3, h4]]
          simp only [List.cons_append, List.nil_append]
          rw [parseStringBody.eq_def]
          simp [ih]
          exact hc
        · by_cases h5 : c.toNat = 10
          · have hc : Char.ofNat 10 = c := by rw [← h5, Char.ofNat_toNat]
            rw [show escapeChar c = ['\\', 'n'] from by
              simp [escapeChar, h1, h2, h3, h4, h5]]
            simp only [List.cons_append, List.nil_append]
            rw [parseStringBody.eq_def]
            simp [ih]
            exact hc
          · by_cases h6 : c.toNat = 12
            · have hc : Char.ofNat 12 = c := by rw [← h6, Char.ofNat_toNat]
              rw [show escapeChar c = ['\\', 'f'] from by
                simp [escapeChar, h1, h2, h3, h4, h5, h6]]
              simp only [List.cons_append, List.nil_append]
              rw [parseStringBody.eq_def]
              simp [ih]
              exact hc
            · by_cases h7 : c.toNat = 13
              · have hc : Char.ofNat 13 = c := by rw [← h7, Char.ofNat_toNat]
                rw [show escapeChar c = ['\\', 'r'] from by
                  simp [escapeChar, h1, h2, h3, h4, h5, h6, h7]]
                simp only [List.cons_append, List.nil_append]
                rw [parseStringBody.eq_def]
                simp [ih]
                exact hc
              · by_cases h8 : c.toNat < 32
                · have hd1 : hexVal (hexDigit (c.toNat / 16)) = some (c.toNat / 16) :=
                    hexVal_hexDigit _ (by omega)
                  have hd2 : hexVal (hexDigit (c.toNat % 16)) = some (c.toNat % 16) :=
                    hexVal_hexDigit _ (Nat.mod_lt _ (by norm_num))
                  have hzero : hexVal '0' = some 0 := by decide
                  have hchar : Char.ofNat (16 * (c.toNat / 16) + c.toNat % 16) = c := by
                    rw [Nat.div_add_mod, Char.ofNat_toNat]
                  rw [show escapeChar c = ['\\', 'u', '0', '0', hexDigit (c.toNat / 16),
                      hexDigit (c.toNat % 16)] from by
                    simp [escapeChar, h1, h2, h3, h4, h5, h6, h7, h8]]
                  simp only [List.cons_append, List.nil_append]
                  rw [parseStringBody.eq_def]
                  simp [ih, hzero, hd1, hd2, hchar]
                · rw [show escapeChar c = [c] from by
                    simp [escapeChar, h1, h2, h3, h4, h5, h6, h7, h8]]
                  simp only [List.cons_append, List.nil_append]
                  rw [parseStringBody.eq_def]
                  simp [ih, h1, h2, h8]

/-- String round trip: the parser decodes an escaped character sequence up
to the closing quote. -/
theorem parseStringBody_escapeChars (s : List Char) (rest : List Char) :
    parseStringBody (escapeChars s ++ '"' :: rest) = some (s, rest) := by
  induction s with
  | nil =>
    rw [escapeChars, List.nil_append, parseStringBody.eq_def]
    simp
  | cons c cs ih =>
    rw [escapeChars, List.append_assoc]
    exact parseStringBody_escape c cs rest _ ih

/-- Atom round trip for strings: the parser consumes exactly the encoding
of a string atom. -/
theorem parseAtom_str (s : String) (tail : List Char) :
    parseAtom (encodeAtomChars (.str s) ++ tail) = some (.str s, tail) := by
  show parseAtom (('"' :: (escapeChars s.data ++ ['"'])) ++ tail) = _
  simp only [List.cons_append, List.append_assoc, List.singleton_append]
  rw [parseAtom.eq_def]
  simp [parseStringBody_escapeChars]

/-- Unfolding of the element parser at positive fuel. -/
theorem parseAtomsRest_succ (fuel : Nat) (l : List Char) :
    parseAtomsRest (fuel + 1) l =
      match parseAtom l with
      | none => none
      | some (a, r) =>
        match r with
        | ']' :: r2 => some ([a], r2)
        | ',' :: r2 => (parseAtomsRest fuel r2).map (fun p => (a :: p.1, p.2))
        | _ => none := rfl

/-- Array-elements round trip for string atoms, for any sufficient fuel. -/
theorem parseAtomsRest_encode (ss : List String) (rest : List Char) (fuel : Nat)
    (hne : ss ≠ []) (hfuel : ss.length ≤ fuel) :
    parseAtomsRest fuel (encodeAtomsCore (ss.map .str) ++ ']' :: rest) =
      some (ss.map .str, rest) := by
  induction ss generalizing fuel with
  | nil => exact absurd rfl hne
  | cons s t ih =>
    cases fuel with
    | zero => exact absurd hfuel (by simp)
    | succ fuel =>
      cases t with
      | nil =>
        simp only [List.map_cons, List.map_nil, encodeAtomsCore]
        rw [parseAtomsRest_succ, parseAtom_str]
        rfl
      | cons s2 t2 =>
        simp only [List.map_cons, encodeAtomsCore, List.append_assoc, List.cons_append]
        rw [parseAtomsRest_succ, parseAtom_str]
        show (parseAtomsRest fuel
            (encodeAtomsCore ((s2 :: t2).map JAtom.str) ++ ']' :: rest)).map
            (fun p => (JAtom.str s :: p.1, p.2)) = some ((s :: s2 :: t2).map JAtom.str, rest)
        rw [ih fuel (by simp) (by simpa using Nat.le_of_succ_le_succ hfuel)]
        simp

/-- The encoded elements of a string array are at least as many characters
as there are elements. -/
theorem length_le_encodeAtomsCore (ss : List String) :
    ss.length ≤ (encodeAtomsCore (ss.map .str)).length := by
  induction ss with
  | nil => simp [encodeAtomsCore]
  | cons s t ih =>
    cases t with
    | nil =>
      simp [encodeAtomsCore, encodeAtomChars, encodeStringChars]
    | cons s2 t2 =>
      simp only [List.map_cons, encodeAtomsCore, List.length_append,
        List.length_cons] at ih ⊢
      have h2 : 1 ≤ (encodeAtomChars (JAtom.str s)).length := by
        simp [encodeAtomChars, encodeStringChars]
      omega

/-- `JSON.parse` inverts `JSON.stringify` on arrays of strings. -/
theorem jsonParse_encodeStrings (ls : List String) :
    jsonParse (encodeJsonArray (ls.map .str)) = some (.arr (ls.map .str)) := by
  cases ls with
  | nil => rfl
  | cons s t =>
    have hcore : encodeAtomsCore ((s :: t).map JAtom.str) =
        '"' :: (encodeAtomsCore ((s :: t).map JAtom.str)).tail := by
      cases t <;>
        simp [encodeAtomsCore, encodeAtomChars, encodeStringChars, List.map_cons]
    have hparse := parseAtomsRest_encode (s :: t) []
      (encodeAtomsCore ((s :: t).map JAtom.str) ++ [']']).length (by simp)
      (by
        simp only [List.length_append]
        have := length_le_encodeAtomsCore (s :: t)
        omega)
    show jsonParse ⟨'[' :: encodeAtomsCore ((s :: t).map JAtom.str) ++ [']']⟩ = _
    rw [jsonParse.eq_def]
    rw [show (⟨'[' :: encodeAtomsCore ((s :: t).map JAtom.str) ++ [']']⟩ : String).data =
      '[' :: (encodeAtomsCore ((s :: t).map JAtom.str) ++ [']']) from rfl]
    rw [hcore]
    simp only [List.cons_append]
    rw [if_neg (by simp)]
    rw [← List.cons_append, ← hcore]
    rw [show encodeAtomsCore ((s :: t).map JAtom.str) ++ [']'] =
      encodeAtomsCore ((s :: t).map JAtom.str) ++ ']' :: ([] : List Char) from rfl]
    rw [hparse]

/-- The row an accepted submission writes under its email key. -/
theorem usersPOST_writes (tempEmail : String) (body : UsersBody) (db : Db)
    (h : (!body.educationLevel.truthy || !body.skills.truthy ||
      body.skills.lengthEqZero) = false) :
    (usersPOST tempEmail body db).2 = fun x =>
      if x = jsOrStr body.email tempEmail then
        some { name := jsOrStr body.name "Anonymous User"
               email := jsOrStr body.email tempEmail
               educationLevel := body.educationLevel
               majorField := (body.majorField).getD ""
               skills := storedJson body.skills
               preferredSectors := storedJson body.preferredSectors
               careerGoal := (body.careerGoal).getD ""
               preferredLocations := storedJson body.preferredLocations
               remoteOk := body.remoteOk.truthy
               availabilityStart := body.availabilityStart
               durationWeeksPref := body.durationWeeksPref
               stipendPref := body.stipendPref
               yearsOfExperience := match db (jsOrStr body.email tempEmail) with
                                    | some old => old.yearsOfExperience
                                    | none => 0 }
      else db x := by
  unfold usersPOST
  rw [if_neg (by simp [h])]

/-- `GET /api/users` on a present non-empty email parses the stored
columns of the found row. -/
theorem usersGET_found (e : String) (hne : e ≠ "") (db : Db) (row : UserRow)
    (hdb : db e = some row) :
    usersGET (some e) db =
      match jsonParse row.skills, jsonParse row.preferredSectors,
            jsonParse row.preferredLocations with
      | some sk, some ps, some pl =>
        .success { email := row.email, skills := sk, preferredSectors := ps,
                   preferredLocations := pl, yearsExperience := row.yearsOfExperience }
      | _, _, _ => .error 500 "Failed to fetch user profile" := by
  simp only [usersGET]
  rw [if_neg hne, hdb]

/-- Claim C10: saving an accepted profile and fetching it back by the same
email returns `skills`, `preferredSectors` and `preferredLocations` arrays
equal to the submitted arrays — the JSON stringify on save followed by the
parse on fetch is a round trip. -/
theorem c10_profile_save_fetch_roundtrip (tempEmail : String) (body : UsersBody)
    (db : Db) (e : String) (ls l2 l3 : List String)
    (hemail : body.email = some e) (hne : e ≠ "")
    (hedu : body.educationLevel.truthy = true)
    (hsk : body.skills = .arr (ls.map .str)) (hls : ls ≠ [])
    (hps : body.preferredSectors = .arr (l2.map .str))
    (hpl : body.preferredLocations = .arr (l3.map .str)) :
    usersGET (some e) (usersPOST tempEmail body db).2 =
      .success { email := e, skills := .arr (ls.map .str),
                 preferredSectors := .arr (l2.map .str),
                 preferredLocations := .arr (l3.map .str),
                 yearsExperience := match db e with
                                    | some old => old.yearsOfExperience
                                    | none => 0 } := by
  have hcond : (!body.educationLevel.truthy || !body.skills.truthy ||
      body.skills.lengthEqZero) = false := by
    rw [hedu, hsk]
    simp [JSVal.truthy, JSVal.lengthEqZero, List.length_eq_zero, hls]
  have he2 : jsOrStr body.email tempEmail = e := by
    rw [hemail]; simp [jsOrStr, hne]
  have hsk2 : storedJson body.skills = encodeJsonArray (ls.map .str) := by
    rw [hsk]; simp [storedJson, jsOr, JSVal.truthy, jsonStringify]
  have hps2 : storedJson body.preferredSectors = encodeJsonArray (l2.map .str) := by
    rw [hps]; simp [storedJson, jsOr, JSVal.truthy, jsonStringify]
  have hpl2 : storedJson body.preferredLocations = encodeJsonArray (l3.map .str) := by
    rw [hpl]; simp [storedJson, jsOr, JSVal.truthy, jsonStringify]
  rw [usersPOST_writes tempEmail body db hcond, he2]
  have hget := usersGET_found e hne
    (fun x => if x = e then
      some { name := jsOrStr body.name "Anonymous User"
             email := e
             educationLevel := body.educationLevel
             majorField := (body.majorField).getD ""
             skills := storedJson body.skills
             preferredSectors := storedJson body.preferredSectors
             careerGoal := (body.careerGoal).getD ""
             preferredLocations := storedJson body.preferredLocations
             remoteOk := body.remoteOk.truthy
             availabilityStart := body.availabilityStart
             durationWeeksPref := body.durationWeeksPref
             stipendPref := body.stipendPref
             yearsOfExperience := match db e with
                                  | some old => old.yearsOfExperience
                                  | none => 0 }
      else db x)
    { name := jsOrStr body.name "Anonymous User"
      email := e
      educationLevel := body.educationLevel
      majorField := (body.majorField).getD ""
      skills := storedJson body.skills
      preferredSectors := storedJson body.preferredSectors
      careerGoal := (body.careerGoal).getD ""
      preferredLocations := storedJson body.preferredLocations
      remoteOk := body.remoteOk.truthy
      availabilityStart := body.availabilityStart
      durationWeeksPref := body.durationWeeksPref
      stipendPref := body.stipendPref
      yearsOfExperience := match db e with
                           | some old => old.yearsOfExperience
                           | none => 0 } (by simp)
  rw [hget]
  simp only [hsk2, hps2, hpl2, jsonParse_encodeStrings]

/-- Witness for C10 on a concrete profile body. -/
theorem c10_profile_save_fetch_roundtrip_witness :
    usersGET (some "asha@example.com") (usersPOST "tmp" roundTripBody emptyDb).2 =
      .success { email := "asha@example.com"
                 skills := .arr [.str "python", .str "sql"]
                 preferredSectors := .arr []
                 preferredLocations := .arr [.str "Mumbai"]
                 yearsExperience := 0 } :=
  c10_profile_save_fetch_roundtrip "tmp" roundTripBody emptyDb "asha@example.com"
    ["python", "sql"] [] ["Mumbai"] rfl (by decide) (by decide) rfl (by decide) rfl rfl
